import Mathlib

set_option autoImplicit false

/-! Shallow embedding of the normalization and query-synthesis layer of the
MCP map/weather tool repository (src/map.py, src/weather.py,
src/mcp_weather_sse.py).  A Python dict with a known field set is embedded as
a structure of `Option`-typed fields (a missing key is `none`); extra unknown
keys, where they matter for Python truthiness of the whole dict, are kept as
an association list.  Numbers are embedded as `ℚ`.  Code that can raise an
uncaught exception is embedded with an explicit `crash`-style constructor. -/

namespace Srv

/-- A JSON value that is either a string or a number, for fields that the
source passes through unchanged but defaults to a string (for example
`place_id`, defaulting to "Unknown"). -/
inductive StrOrNum where
  | str (s : String)
  | num (q : ℚ)
deriving DecidableEq, Repr

/-- Formatted coordinate pair, as built by the normalizers. -/
structure Coordinates where
  latitude : ℚ
  longitude : ℚ
deriving DecidableEq, Repr

/-- Character-level splitter: Python `str.split(sep)` with a one-character
separator (empty string gives `[""]`, adjacent separators give empty
parts). -/
def splitChars (sep : Char) : List Char → List (List Char)
  | [] => [[]]
  | c :: rest =>
    let r := splitChars sep rest
    if c = sep then [] :: r
    else
      match r with
      | [] => [[c]]
      | g :: gs => (c :: g) :: gs

/-- Python `s.split(sep)` for a one-character separator. -/
def pySplit (s : String) (sep : Char) : List String :=
  (splitChars sep s.data).map String.mk

/-- Lookup in an association-list embedding of a Python dict, with default:
`tags.get(key, deflt)`. -/
def dictGet (tags : List (String × String)) (key deflt : String) : String :=
  match tags.find? (fun p => p.1 == key) with
  | some p => p.2
  | none => deflt

/-! ## map.py : format_location_result -/

/-- Input of `format_location_result`: one Nominatim place record.  The
source converts `lat`/`lon` with `float(...)`; on the numeric model the
conversion is the identity (its failure on a malformed string is outside the
missing-field scope of the spec). -/
structure LocationRecord where
  display_name : Option String := none
  name : Option String := none
  type_ : Option String := none
  lat : Option ℚ := none
  lon : Option ℚ := none
  address : Option (List (String × String)) := none
  importance : Option ℚ := none
  place_id : Option StrOrNum := none

/-- Output of `format_location_result`. -/
structure FormattedLocation where
  display_name : String
  name : String
  type_ : String
  coordinates : Coordinates
  address : List (String × String)
  importance : ℚ
  place_id : StrOrNum
deriving DecidableEq

/-- map.py `format_location_result`. -/
def format_location_result (location : LocationRecord) : FormattedLocation :=
  { display_name := location.display_name.getD "Unknown"
    name := location.name.getD "Unknown"
    type_ := location.type_.getD "Unknown"
    coordinates :=
      { latitude := location.lat.getD 0
        longitude := location.lon.getD 0 }
    address := location.address.getD []
    importance := location.importance.getD 0
    place_id := location.place_id.getD (.str "Unknown") }

/-! ## map.py : format_service_result -/

/-- The `center` sub-record of an Overpass element. -/
structure CenterRecord where
  lat : Option ℚ := none
  lon : Option ℚ := none

/-- Input of `format_service_result`: one Overpass element. -/
structure OsmElement where
  type_ : Option String := none
  id : Option StrOrNum := none
  lat : Option ℚ := none
  lon : Option ℚ := none
  center : Option CenterRecord := none
  tags : Option (List (String × String)) := none

/-- The structured address sub-record built by `format_service_result`. -/
structure ServiceAddress where
  street : String
  house_number : String
  city : String
  postcode : String
deriving DecidableEq

/-- Output of `format_service_result`. -/
structure ServicePlace where
  id : StrOrNum
  type_ : String
  name : String
  coordinates : Coordinates
  amenity : String
  shop : String
  cuisine : String
  opening_hours : String
  phone : String
  website : String
  address : ServiceAddress
  tags : List (String × String)
deriving DecidableEq

/-- map.py `format_service_result`.  The coordinate source branches on the
element type: `node` reads direct `lat`/`lon`; `way` reads the `center`
sub-record; every other type (including `relation`) falls to the final
`else` branch. -/
def format_service_result (element : OsmElement) : ServicePlace :=
  let tags := element.tags.getD []
  let coords : Coordinates :=
    if element.type_ = some "node" then
      { latitude := element.lat.getD 0
        longitude := element.lon.getD 0 }
    else if element.type_ = some "way" then
      let center := element.center.getD {}
      { latitude := center.lat.getD 0
        longitude := center.lon.getD 0 }
    else
      { latitude := 0, longitude := 0 }
  { id := element.id.getD (.str "Unknown")
    type_ := element.type_.getD "Unknown"
    name := dictGet tags "name" "Unnamed"
    coordinates := coords
    amenity := dictGet tags "amenity" "Unknown"
    shop := dictGet tags "shop" ""
    cuisine := dictGet tags "cuisine" ""
    opening_hours := dictGet tags "opening_hours" "Unknown"
    phone := dictGet tags "phone" ""
    website := dictGet tags "website" ""
    address :=
      { street := dictGet tags "addr:street" ""
        house_number := dictGet tags "addr:housenumber" ""
        city := dictGet tags "addr:city" ""
        postcode := dictGet tags "addr:postcode" "" }
    tags := tags }

/-! ## map.py : format_route_result -/

/-- The `maneuver` sub-record of an OSRM step. -/
structure ManeuverRecord where
  instruction : Option String := none
  type_ : Option String := none

/-- One OSRM step record. -/
structure StepRecord where
  maneuver : Option ManeuverRecord := none
  distance : Option ℚ := none
  duration : Option ℚ := none
  name : Option String := none

/-- One OSRM leg record. -/
structure LegRecord where
  distance : Option ℚ := none
  duration : Option ℚ := none
  steps : Option (List StepRecord) := none

/-- One OSRM route record. -/
structure RouteRecord where
  distance : Option ℚ := none
  duration : Option ℚ := none
  geometry : Option String := none
  legs : Option (List LegRecord) := none

/-- Input of `format_route_result`: the OSRM response body. -/
structure RouteData where
  code : Option String := none
  message : Option String := none
  routes : Option (List RouteRecord) := none

/-- Fixed-point decimal rendering of a rational with `d` fractional digits,
rounding to nearest (ties up).  The source formats the corresponding Python
float with `:.Nf`; the two agree except on ties and binary representation
edge cases, on which no claim depends. -/
def fixedDecimal (d : Nat) (q : ℚ) : String :=
  let n : Int := round (q * (10 : ℚ) ^ d)
  let m : Nat := n.natAbs
  let ip : Nat := m / 10 ^ d
  let fr : Nat := m % 10 ^ d
  let frDigits : String := (toString (10 ^ d + fr)).drop 1
  (if n < 0 then "-" else "") ++ toString ip ++
    (if d = 0 then "" else "." ++ frDigits)

/-- Output step record of `format_route_result`: raw meters/seconds. -/
structure FormattedStep where
  instruction : String
  distance : String
  duration : String
  name : String
  type_ : String
deriving DecidableEq

/-- Output leg record of `format_route_result`: km / minutes. -/
structure FormattedLeg where
  distance : String
  duration : String
  steps : List FormattedStep
deriving DecidableEq

/-- Output route record of `format_route_result`. -/
structure FormattedRoute where
  distance : String
  duration : String
  geometry : String
  legs : List FormattedLeg
deriving DecidableEq

/-- The step comprehension inside `format_route_result`. -/
def format_route_step (step : StepRecord) : FormattedStep :=
  { instruction := (step.maneuver.getD {}).instruction.getD "Continue"
    distance := toString (step.distance.getD 0) ++ " m"
    duration := toString (step.duration.getD 0) ++ " s"
    name := step.name.getD ""
    type_ := (step.maneuver.getD {}).type_.getD "" }

/-- The leg comprehension inside `format_route_result`. -/
def format_route_leg (leg : LegRecord) : FormattedLeg :=
  { distance := fixedDecimal 2 (leg.distance.getD 0 / 1000) ++ " km"
    duration := fixedDecimal 1 (leg.duration.getD 0 / 60) ++ " minutes"
    steps := (leg.steps.getD []).map format_route_step }

/-- The dict built from `routes[0]` inside `format_route_result`. -/
def format_first_route (route : RouteRecord) : FormattedRoute :=
  { distance := fixedDecimal 2 (route.distance.getD 0 / 1000) ++ " km"
    duration := fixedDecimal 1 (route.duration.getD 0 / 60) ++ " minutes"
    geometry := route.geometry.getD ""
    legs := (route.legs.getD []).map format_route_leg }

/-- Result of `format_route_result`: the error dict or the formatted route. -/
inductive RouteResult where
  | error (msg : String)
  | route (r : FormattedRoute)
deriving DecidableEq

/-- map.py `format_route_result`.  The source guards with
`if not route_data.get("routes")` (missing key or empty list) and only then
evaluates `route_data["routes"][0]`; the match keeps that shape: the head is
taken only in the nonempty branch. -/
def format_route_result (route_data : RouteData) : RouteResult :=
  match route_data.routes with
  | none => .error "No routes found"
  | some [] => .error "No routes found"
  | some (route :: _) => .route (format_first_route route)

/-! ## Tool entry points: pre-network validation and response handling.

A tool body is split at the network boundary.  The part before the request
is a function of the caller inputs returning either a `reply` (the tool
returns this string without any network call) or a `request` (the outbound
request payload).  The part after the request is a function of the upstream
response (`none` when the request helper caught an exception and returned
None). -/

/-- Outcome of the code before the network call of one tool. -/
inductive ToolStep (α : Type) where
  | reply (msg : String)
  | request (r : α)
deriving DecidableEq

/-- Outcome of the response handling of one tool: a plain message, an
uncaught exception, or a normalized success value. -/
inductive ToolReply (α : Type) where
  | msg (s : String)
  | crash
  | ok (a : α)
deriving DecidableEq

/-- The `limit` query parameter forwarded to Nominatim by `search_location`:
`min(limit, 50)` in the source. -/
def search_location_limit (limit : Int) : Int := min limit 50

/-- map.py `search_location` after the Nominatim request.  `data` is `none`
when the request helper returned None; a success with zero matches is
`some []`.  The source checks `if not data` twice in a row with two
different messages (lines 182 and 185); both conditions are the same Python
falsiness test, embedded here exactly as written. -/
def search_location_body (data : Option (List LocationRecord)) :
    ToolReply (List FormattedLocation) :=
  match data with
  | none => .msg "Unable to fetch location data."
  | some locs =>
    if locs.isEmpty then .msg "Unable to fetch location data."
    else if locs.isEmpty then .msg "No locations found for the given query."
    else .ok (locs.map format_location_result)

/-- The Overpass response body: `elements` plus the remaining keys, kept
only for the truthiness test of the whole dict. -/
structure OverpassData where
  elements : Option (List OsmElement) := none
  extra : List (String × String) := []

/-- Python truthiness of the Overpass response dict: falsy iff it has no
keys at all. -/
def OverpassData.isFalsy (d : OverpassData) : Bool :=
  d.elements.isNone && d.extra.isEmpty

/-- map.py `search_services` after the Overpass request. -/
def search_services_body (service_type : String) (radius : Int)
    (data : Option OverpassData) : ToolReply (List ServicePlace) :=
  match data with
  | none => .msg "Unable to fetch service data."
  | some d =>
    if d.isFalsy then .msg "Unable to fetch service data."
    else
      let elements := d.elements.getD []
      if elements.isEmpty then
        .msg ("No " ++ service_type ++ " services found within " ++
          toString radius ++ "m of the specified location.")
      else .ok (elements.map format_service_result)

/-- The closed profile set of map.py `get_directions`. -/
def valid_profiles : List String := ["driving", "walking", "cycling"]

/-- map.py `get_directions` before the network call: the profile validation
and the OSRM URL synthesis (longitude before latitude). -/
def get_directions_step (start_lat start_lon end_lat end_lon : ℚ)
    (profile : String) : ToolStep String :=
  if profile ∉ valid_profiles then
    .reply ("Invalid profile. Must be one of: " ++
      String.intercalate ", " valid_profiles)
  else
    .request ("https://router.project-osrm.org/route/v1/" ++ profile ++ "/" ++
      toString start_lon ++ "," ++ toString start_lat ++ ";" ++
      toString end_lon ++ "," ++ toString end_lat ++
      "?overview=full&steps=true&geometries=geojson")

/-! ## weather.py : alerts -/

/-- The `properties` sub-record of one NWS alert feature. -/
structure AlertProps where
  event : Option String := none
  areaDesc : Option String := none
  severity : Option String := none
  description : Option String := none
  instruction : Option String := none

/-- One NWS alert feature. -/
structure AlertFeature where
  properties : Option AlertProps := none

/-- weather.py `format_alert`.  The source reads `feature["properties"]` by
keyword access, which raises KeyError when the key is missing: that case is
`none`.  Every nested field is read with `.get` and a default. -/
def format_alert (feature : AlertFeature) : Option String :=
  match feature.properties with
  | none => none
  | some props =>
    some ("\nEvent: " ++ props.event.getD "Unknown" ++
      "\nArea: " ++ props.areaDesc.getD "Unknown" ++
      "\nSeverity: " ++ props.severity.getD "Unknown" ++
      "\nDescription: " ++ props.description.getD "No description available" ++
      "\nInstructions: " ++
        props.instruction.getD "No specific instructions provided" ++ "\n")

/-- The NWS alerts response body: `features` plus the remaining keys, kept
for the truthiness test. -/
structure AlertsData where
  features : Option (List AlertFeature) := none
  extra : List (String × String) := []

/-- weather.py `get_alerts` after the NWS request.  The source guard is
`if not data or "features" not in data`; a present but empty `features`
list then gets the distinct no-alerts message.  A feature without
`properties` makes `format_alert` raise, uncaught here. -/
def get_alerts_body (data : Option AlertsData) : ToolReply String :=
  match data with
  | none => .msg "Unable to fetch alerts or no alerts found."
  | some d =>
    if (d.features.isNone && d.extra.isEmpty) || d.features.isNone then
      .msg "Unable to fetch alerts or no alerts found."
    else
      let features := d.features.getD []
      if features.isEmpty then .msg "No active alerts for this state."
      else if features.all (fun f => f.properties.isSome) then
        .ok (String.intercalate "\n---\n" (features.filterMap format_alert))
      else .crash

/-! ## weather.py : get_forecast two-step lookup -/

/-- The `properties` sub-record of the NWS points response. -/
structure PointsProperties where
  forecast : Option String := none
  extra : List (String × String) := []

/-- The NWS points response body. -/
structure PointsData where
  properties : Option PointsProperties := none
  extra : List (String × String) := []

/-- Outcome of the first step of `get_forecast`: a diagnostic returned
without the second request, an uncaught KeyError, or the second request
issued against the extracted forecast URL. -/
inductive ForecastStep1 where
  | diagnostic (msg : String)
  | crash
  | proceed (forecast_url : String)
deriving DecidableEq

/-- weather.py `get_forecast` between the first (points) request and the
second (forecast) request.  `if not points_data` catches None and the empty
dict; otherwise `points_data["properties"]["forecast"]` is keyword access
that raises KeyError when either key is missing. -/
def get_forecast_step1 (points_data : Option PointsData) : ForecastStep1 :=
  match points_data with
  | none => .diagnostic "Unable to fetch forecast data for this location."
  | some pd =>
    if pd.properties.isNone && pd.extra.isEmpty then
      .diagnostic "Unable to fetch forecast data for this location."
    else
      match pd.properties with
      | none => .crash
      | some props =>
        match props.forecast with
        | none => .crash
        | some url => .proceed url

/-! ## weather.py : OpenWeatherMap credential and day validation -/

/-- Python truthiness of the `OPENWEATHER_API_KEY` module variable:
falsy when the environment variable is unset or empty. -/
def keyFalsy (api_key : Option String) : Bool :=
  match api_key with
  | none => true
  | some s => s.isEmpty

/-- The message returned when the credential is unset. -/
def missing_key_msg : String :=
  "OpenWeatherMap API key not configured. Please set OPENWEATHER_API_KEY environment variable."

/-- The message returned by the day-count validation. -/
def days_range_msg : String := "Days must be between 1 and 5."

/-- weather.py `get_weather_forecast` before the network call: the
credential check (line 270), then the day-count check (line 273), then the
request payload. -/
def get_weather_forecast_step (api_key : Option String) (city : String)
    (days : Int) (units : String) : ToolStep (String × List (String × String)) :=
  if keyFalsy api_key then .reply missing_key_msg
  else if days < 1 ∨ days > 5 then .reply days_range_msg
  else .request ("https://api.openweathermap.org/data/2.5/forecast",
    [("q", city), ("units", units)])

/-! ## weather.py : format_current_weather -/

/-- The `main` sub-record of an OpenWeatherMap payload. -/
structure MainRecord where
  temp : Option ℚ := none
  feels_like : Option ℚ := none
  temp_min : Option ℚ := none
  temp_max : Option ℚ := none
  humidity : Option ℚ := none
  pressure : Option ℚ := none

/-- One entry of the `weather` array of an OpenWeatherMap payload. -/
structure WeatherCond where
  main : Option String := none
  description : Option String := none
  icon : Option String := none

/-- The `wind` sub-record. -/
structure WindRecord where
  speed : Option ℚ := none
  deg : Option ℚ := none

/-- The `clouds` sub-record. -/
structure CloudsRecord where
  all : Option ℚ := none

/-- The `sys` sub-record. -/
structure SysRecord where
  country : Option String := none
  sunrise : Option ℚ := none
  sunset : Option ℚ := none

/-- The `coord` sub-record. -/
structure CoordRecord where
  lat : Option ℚ := none
  lon : Option ℚ := none

/-- A `rain` or `snow` sub-record; the source reads its key `1h`. -/
structure PrecipRecord where
  oneHour : Option ℚ := none

/-- Input of `format_current_weather`: the OpenWeatherMap current-weather
payload. -/
structure CurrentWeatherData where
  name : Option String := none
  sys : Option SysRecord := none
  coord : Option CoordRecord := none
  main : Option MainRecord := none
  wind : Option WindRecord := none
  weather : Option (List WeatherCond) := none
  visibility : Option ℚ := none
  clouds : Option CloudsRecord := none
  rain : Option PrecipRecord := none
  snow : Option PrecipRecord := none

/-- Formatted wind block. -/
structure FormattedWind where
  speed : String
  direction : ℚ
deriving DecidableEq

/-- Formatted weather-condition block. -/
structure FormattedCond where
  main : String
  description : String
  icon : String
deriving DecidableEq

/-- The `current` block of the formatted weather record.  `rain`/`snow` are
attached only when the source payload contains them. -/
structure CurrentBlock where
  temperature : String
  feels_like : String
  humidity : String
  pressure : String
  wind : FormattedWind
  weather : FormattedCond
  visibility : String
  cloudiness : String
  sunrise : ℚ
  sunset : ℚ
  rain : Option String
  snow : Option String
deriving DecidableEq

/-- The `location` block of the formatted weather record. -/
structure LocationBlock where
  name : String
  country : String
  coordinates : Coordinates
deriving DecidableEq

/-- Output of `format_current_weather` on success. -/
structure CurrentWeatherRecord where
  location : LocationBlock
  current : CurrentBlock
deriving DecidableEq

/-- Result of `format_current_weather`: the try/except of the source turns
any exception inside the dict construction into an error dict. -/
inductive CurrentWeatherResult where
  | error (msg : String)
  | ok (w : CurrentWeatherRecord)
deriving DecidableEq

/-- The dict built by weather.py `format_current_weather` when nothing
raises: every access is `.get` with a default. -/
def format_current_weather_ok (data : CurrentWeatherData) (units : String) :
    CurrentWeatherRecord :=
  let temp_unit := if units = "metric" then "°C" else "°F"
  let speed_unit := if units = "metric" then "m/s" else "mph"
  let w0 : WeatherCond := (data.weather.getD [{}]).headD {}
  let main := data.main.getD {}
  let wind := data.wind.getD {}
  { location :=
      { name := data.name.getD "Unknown"
        country := (data.sys.getD {}).country.getD "Unknown"
        coordinates :=
          { latitude := (data.coord.getD {}).lat.getD 0
            longitude := (data.coord.getD {}).lon.getD 0 } }
    current :=
      { temperature := toString (main.temp.getD 0) ++ temp_unit
        feels_like := toString (main.feels_like.getD 0) ++ temp_unit
        humidity := toString (main.humidity.getD 0) ++ "%"
        pressure := toString (main.pressure.getD 0) ++ " hPa"
        wind :=
          { speed := toString (wind.speed.getD 0) ++ " " ++ speed_unit
            direction := wind.deg.getD 0 }
        weather :=
          { main := w0.main.getD "Unknown"
            description := w0.description.getD "Unknown"
            icon := w0.icon.getD "Unknown" }
        visibility := toString (data.visibility.getD 0 / 1000) ++ " km"
        cloudiness := toString ((data.clouds.getD {}).all.getD 0) ++ "%"
        sunrise := (data.sys.getD {}).sunrise.getD 0
        sunset := (data.sys.getD {}).sunset.getD 0
        rain := data.rain.map (fun r => toString (r.oneHour.getD 0) ++ " mm")
        snow := data.snow.map (fun s => toString (s.oneHour.getD 0) ++ " mm") } }

/-- weather.py `format_current_weather`.  The only fallible spot in the
source body is `data.get('weather', [{}])[0]`: when the `weather` key is
present with an empty array, `[0]` raises IndexError and the except branch
returns the error dict; in every other case the construction succeeds. -/
def format_current_weather (data : CurrentWeatherData) (units : String) :
    CurrentWeatherResult :=
  match data.weather with
  | some [] => .error "Error formatting weather data"
  | _ => .ok (format_current_weather_ok data units)

/-! ## weather.py : format_forecast -/

/-- One entry of the `list` array of the OpenWeatherMap forecast payload. -/
structure ForecastItem where
  dt_txt : Option String := none
  main : Option MainRecord := none
  weather : Option (List WeatherCond) := none
  wind : Option WindRecord := none
  clouds : Option CloudsRecord := none

/-- The `city` sub-record of the forecast payload. -/
structure CityData where
  name : Option String := none
  country : Option String := none
  coord : Option CoordRecord := none

/-- Input of `format_forecast`: the OpenWeatherMap forecast payload. -/
structure ForecastData where
  city : Option CityData := none
  list : Option (List ForecastItem) := none

/-- One formatted per-timestamp forecast sample. -/
structure ForecastSample where
  time : String
  temperature : String
  feels_like : String
  min_temp : String
  max_temp : String
  humidity : String
  pressure : String
  weather : FormattedCond
  wind : FormattedWind
  cloudiness : String
deriving DecidableEq

/-- Output of `format_forecast` on success: the location block and the
date-bucketed forecast, an insertion-ordered dict embedded as an
association list. -/
structure ForecastOutput where
  location : LocationBlock
  forecast : List (String × List ForecastSample)
deriving DecidableEq

/-- The date key of one forecast item:
`item.get("dt_txt", "").split(" ")[0]` (index 0 always exists). -/
def dateOfItem (item : ForecastItem) : String :=
  (pySplit (item.dt_txt.getD "") ' ').headD ""

/-- Well-formedness of one forecast item, i.e. the condition under which the
per-item dict construction in the source does not raise: `split(" ")[1]`
needs a second part, and `item.get('weather', [{}])[0]` needs the `weather`
key, when present, to be nonempty. -/
def itemOk (item : ForecastItem) : Bool :=
  decide (2 ≤ (pySplit (item.dt_txt.getD "") ' ').length) &&
    (match item.weather with
     | some [] => false
     | _ => true)

/-- The per-item dict appended into a date bucket by `format_forecast`.
The two fallible accesses are hoisted into `itemOk`; under that guard,
`(pySplit ...).getD 1 ""` equals the raising `split(" ")[1]` of the source
and `headD` equals `[0]`. -/
def format_forecast_item (temp_unit speed_unit : String)
    (item : ForecastItem) : ForecastSample :=
  let main := item.main.getD {}
  let w0 : WeatherCond := (item.weather.getD [{}]).headD {}
  let wind := item.wind.getD {}
  { time := (pySplit (item.dt_txt.getD "") ' ').getD 1 ""
    temperature := toString (main.temp.getD 0) ++ temp_unit
    feels_like := toString (main.feels_like.getD 0) ++ temp_unit
    min_temp := toString (main.temp_min.getD 0) ++ temp_unit
    max_temp := toString (main.temp_max.getD 0) ++ temp_unit
    humidity := toString (main.humidity.getD 0) ++ "%"
    pressure := toString (main.pressure.getD 0) ++ " hPa"
    weather :=
      { main := w0.main.getD "Unknown"
        description := w0.description.getD "Unknown"
        icon := w0.icon.getD "Unknown" }
    wind :=
      { speed := toString (wind.speed.getD 0) ++ " " ++ speed_unit
        direction := wind.deg.getD 0 }
    cloudiness := toString ((item.clouds.getD {}).all.getD 0) ++ "%" }

/-- One iteration of the bucketing loop of `format_forecast` on the
insertion-ordered dict, embedded as an association list with unique keys:
append to the entry with the date key when one exists, otherwise add a new
singleton bucket at the end (dict insertion order). -/
def dictInsert {β : Type} : List (String × List β) → String → β →
    List (String × List β)
  | [], d, s => [(d, [s])]
  | p :: rest, d, s =>
    if p.1 = d then (p.1, p.2 ++ [s]) :: rest
    else p :: dictInsert rest d s

/-- The whole bucketing loop: fold `dictInsert` over the items, formatting
each at append time. -/
def bucketByDate {α β : Type} (dateOf : α → String) (fmt : α → β)
    (items : List α) : List (String × List β) :=
  items.foldl (fun acc it => dictInsert acc (dateOf it) (fmt it)) []

/-- Key-list counterpart of one `dictInsert`: append the key at the end iff
it is absent. -/
def insKey (ks : List String) (d : String) : List String :=
  match ks with
  | [] => [d]
  | k :: rest => if k = d then k :: rest else k :: insKey rest d

/-- Python list slicing `l[:n]` for an `int` bound: a nonnegative bound
takes that many from the front, a negative bound counts from the end. -/
def pySliceTo {α : Type} (n : Int) (l : List α) : List α :=
  if 0 ≤ n then l.take n.toNat else l.take ((l.length : Int) + n).toNat

/-- Result keys: `list(daily_forecasts.keys())[:days]`. -/
def forecastDates (daily : List (String × List ForecastSample)) (days : Int) :
    List String :=
  pySliceTo days (daily.map Prod.fst)

/-- The bucketing loop of `format_forecast`, with the unit suffixes chosen
once from the unit system (lines 120-121 of the source). -/
def forecastBuckets (data : ForecastData) (units : String) :
    List (String × List ForecastSample) :=
  bucketByDate dateOfItem
    (format_forecast_item (if units = "metric" then "°C" else "°F")
      (if units = "metric" then "m/s" else "mph"))
    (data.list.getD [])

/-- The dict built by `format_forecast` when no per-item access raises. -/
def format_forecast_ok (data : ForecastData) (days : Int) (units : String) :
    ForecastOutput :=
  let city_data := data.city.getD {}
  let daily := forecastBuckets data units
  let dates := forecastDates daily days
  let limited := dates.filterMap
    (fun d => (daily.find? (fun p => p.1 == d)).map (fun p => (d, p.2)))
  { location :=
      { name := city_data.name.getD "Unknown"
        country := city_data.country.getD "Unknown"
        coordinates :=
          { latitude := (city_data.coord.getD {}).lat.getD 0
            longitude := (city_data.coord.getD {}).lon.getD 0 } }
    forecast := limited }

/-- weather.py `format_forecast`.  Success (`some`) is the case where no
per-item access raises; otherwise (`none`) the except branch of the source
returns the error dict.  The final dict comprehension keeps the kept dates
in `forecast_dates` order. -/
def format_forecast (data : ForecastData) (days : Int) (units : String) :
    Option ForecastOutput :=
  if (data.list.getD []).all itemOk then
    some (format_forecast_ok data days units)
  else none

/-! ## Specification-side helpers for the bucketing theorems. -/

/-- The keys of a list in order of first occurrence. -/
def firstSeen (l : List String) : List String := l.foldl insKey []

/-- Whether a bucket list has an entry with the given key. -/
def hasKey {β : Type} (b : List (String × List β)) (d : String) : Bool :=
  b.any (fun p => p.1 == d)

/-- The value list of the first entry with the given key ([] if absent). -/
def getVals {β : Type} : List (String × List β) → String → List β
  | [], _ => []
  | p :: rest, d => if p.1 = d then p.2 else getVals rest d

/-- Concrete forecast payload used to witness the bucketing theorems: four
samples over three distinct dates, the first date split around the second. -/
def sampleForecastData : ForecastData :=
  { list := some
      [ { dt_txt := some "2024-01-01 00:00:00" }
      , { dt_txt := some "2024-01-02 03:00:00" }
      , { dt_txt := some "2024-01-01 06:00:00" }
      , { dt_txt := some "2024-01-03 00:00:00" } ] }

/-- The output of `format_forecast` on `sampleForecastData` with two days. -/
def sampleForecastOut : ForecastOutput :=
  (format_forecast sampleForecastData 2 "metric").getD
    { location :=
        { name := "", country := "", coordinates := { latitude := 0, longitude := 0 } }
      forecast := [] }

/-- Output of `format_forecast` on `sampleForecastData` with imperial units,
used to witness the unit-suffix theorem. -/
def sampleForecastOutF : ForecastOutput :=
  (format_forecast sampleForecastData 2 "imperial").getD
    { location :=
        { name := "", country := "", coordinates := { latitude := 0, longitude := 0 } }
      forecast := [] }

/-- The weather record produced by `format_current_weather` on the empty
payload with imperial units, used to witness the unit-suffix theorem. -/
def sampleCurrentF : CurrentWeatherRecord :=
  match format_current_weather {} "imperial" with
  | .ok w => w
  | .error _ =>
    { location := { name := "", country := "", coordinates := { latitude := 0, longitude := 0 } }
      current :=
        { temperature := "", feels_like := "", humidity := "", pressure := ""
          wind := { speed := "", direction := 0 }
          weather := { main := "", description := "", icon := "" }
          visibility := "", cloudiness := "", sunrise := 0, sunset := 0
          rain := none, snow := none } }

/-- Same on the metric side. -/
def sampleCurrentC : CurrentWeatherRecord :=
  match format_current_weather {} "metric" with
  | .ok w => w
  | .error _ => sampleCurrentF

/-! ## Lemmas on the bucketing fold -/

/-- `hasKey` is membership in the key list. -/
theorem hasKey_iff_mem {β : Type} (b : List (String × List β)) (d : String) :
    hasKey b d = true ↔ d ∈ b.map Prod.fst := by
  simp [hasKey, List.any_eq_true, beq_iff_eq, List.mem_map]

/-- The key list after `dictInsert` is `insKey` of the key list. -/
theorem map_fst_dictInsert {β : Type} (b : List (String × List β)) (d : String)
    (s : β) :
    (dictInsert b d s).map Prod.fst = insKey (b.map Prod.fst) d := by
  induction b with
  | nil => rfl
  | cons p t ih =>
    by_cases hd : p.1 = d <;> simp [dictInsert, insKey, hd, ih]

/-- The combined effect of one `dictInsert` on `getVals`. -/
theorem getVals_dictInsert {β : Type} (b : List (String × List β)) (d e : String)
    (s : β) :
    getVals (dictInsert b d s) e
      = if d = e then getVals b e ++ [s] else getVals b e := by
  induction b with
  | nil =>
    by_cases hde : d = e <;> simp [dictInsert, getVals, hde]
  | cons p t ih =>
    by_cases hd : p.1 = d
    · by_cases hde : d = e
      · simp [dictInsert, getVals, hd, hde]
      · have hpe : p.1 ≠ e := by rw [hd]; exact hde
        simp [dictInsert, getVals, hd, hde, hpe]
    · by_cases hpe : p.1 = e
      · have hde : d ≠ e := fun he => hd (by rw [he, hpe])
        have hed : e ≠ d := fun he => hde he.symm
        simp [dictInsert, getVals, hd, hpe, hde, hed]
      · simp [dictInsert, getVals, hd, hpe, ih]

/-- Keys of the whole fold, relative to an arbitrary accumulator. -/
theorem map_fst_foldl {α β : Type} (dateOf : α → String) (fmt : α → β)
    (items : List α) (acc : List (String × List β)) :
    ((items.foldl (fun a it => dictInsert a (dateOf it) (fmt it)) acc).map
      Prod.fst) = (items.map dateOf).foldl insKey (acc.map Prod.fst) := by
  induction items generalizing acc with
  | nil => rfl
  | cons it rest ih =>
    simp only [List.foldl_cons, List.map_cons, ih, map_fst_dictInsert]

/-- The keys of the buckets are the dates in first-seen order. -/
theorem bucket_keys {α β : Type} (dateOf : α → String) (fmt : α → β)
    (items : List α) :
    (bucketByDate dateOf fmt items).map Prod.fst
      = firstSeen (items.map dateOf) := by
  unfold bucketByDate firstSeen
  exact map_fst_foldl dateOf fmt items []

/-- Values of one key over the whole fold, relative to an accumulator. -/
theorem getVals_foldl {α β : Type} (dateOf : α → String) (fmt : α → β)
    (items : List α) (acc : List (String × List β)) (d : String) :
    getVals (items.foldl (fun a it => dictInsert a (dateOf it) (fmt it)) acc) d
      = getVals acc d ++ (items.filter (fun it => dateOf it == d)).map fmt := by
  induction items generalizing acc with
  | nil => simp
  | cons it rest ih =>
    rw [List.foldl_cons, ih, getVals_dictInsert]
    by_cases h : dateOf it = d
    · simp [List.filter_cons, h]
    · simp [List.filter_cons, h]

/-- The values of one bucket are exactly the formatted items of that date,
in input order. -/
theorem bucket_vals {α β : Type} (dateOf : α → String) (fmt : α → β)
    (items : List α) (d : String) :
    getVals (bucketByDate dateOf fmt items) d
      = (items.filter (fun it => dateOf it == d)).map fmt := by
  unfold bucketByDate
  rw [getVals_foldl]
  rfl

/-- A present key is found, with its `getVals` values. -/
theorem find?_of_hasKey {β : Type} (b : List (String × List β)) (d : String)
    (h : hasKey b d = true) :
    b.find? (fun p => p.1 == d) = some (d, getVals b d) := by
  induction b with
  | nil => simp [hasKey] at h
  | cons p t ih =>
    by_cases hd : p.1 = d
    · cases p with
      | mk k v =>
        simp only at hd
        subst hd
        simp [List.find?, getVals]
    · have h' : hasKey t d = true := by
        simp only [hasKey, List.any_cons, Bool.or_eq_true, beq_iff_eq] at h
        exact h.resolve_left hd
      have hb : (p.1 == d) = false := by simpa using hd
      simp [List.find?, hb, getVals, hd, ih h']

/-- The dict comprehension of `format_forecast`, on keys all present. -/
theorem limited_eq {β : Type} (ds : List String) (b : List (String × List β))
    (h : ∀ d ∈ ds, hasKey b d = true) :
    ds.filterMap
        (fun d => (b.find? (fun p => p.1 == d)).map (fun p => (d, p.2)))
      = ds.map (fun d => (d, getVals b d)) := by
  induction ds with
  | nil => rfl
  | cons d rest ih =>
    rw [List.filterMap_cons, find?_of_hasKey b d (h d (by simp))]
    have hrest := ih (fun x hx => h x (by simp [hx]))
    simp [hrest]

/-- Python slicing with a nonnegative bound is `take`. -/
theorem pySliceTo_nonneg {α : Type} (n : Int) (l : List α) (h : 0 ≤ n) :
    pySliceTo n l = l.take n.toNat := by
  unfold pySliceTo
  rw [if_pos h]

/-- Sliced elements come from the list. -/
theorem mem_pySliceTo {α : Type} (n : Int) (l : List α) (a : α)
    (h : a ∈ pySliceTo n l) : a ∈ l := by
  unfold pySliceTo at h
  split at h <;> exact List.mem_of_mem_take h

/-- The forecast field of a successful `format_forecast`, in closed form:
the first-seen dates sliced to `days`, each paired with the formatted
samples of that date in input order. -/
theorem format_forecast_closed (data : ForecastData) (days : Int)
    (units : String) (out : ForecastOutput)
    (h : format_forecast data days units = some out) :
    out.forecast
      = (pySliceTo days (firstSeen ((data.list.getD []).map dateOfItem))).map
          (fun d => (d,
            ((data.list.getD []).filter (fun it => dateOfItem it == d)).map
              (format_forecast_item (if units = "metric" then "°C" else "°F")
                (if units = "metric" then "m/s" else "mph")))) := by
  unfold format_forecast at h
  split at h
  case isFalse => exact Option.noConfusion h
  case isTrue hg =>
    obtain rfl := Option.some.inj h
    show (forecastDates (forecastBuckets data units) days).filterMap _ = _
    have hkeys : (forecastBuckets data units).map Prod.fst
        = firstSeen ((data.list.getD []).map dateOfItem) :=
      bucket_keys _ _ _
    have hmem : ∀ d ∈ forecastDates (forecastBuckets data units) days,
        hasKey (forecastBuckets data units) d = true := by
      intro d hd
      rw [hasKey_iff_mem]
      exact mem_pySliceTo days _ d hd
    rw [limited_eq _ _ hmem]
    unfold forecastDates
    rw [hkeys]
    refine List.map_congr_left ?_
    intro d _
    rw [show getVals (forecastBuckets data units) d
        = ((data.list.getD []).filter (fun it => dateOfItem it == d)).map
            (format_forecast_item (if units = "metric" then "°C" else "°F")
              (if units = "metric" then "m/s" else "mph"))
      from bucket_vals _ _ _ _]

/-- A successful `format_current_weather` returns the standard record. -/
theorem format_current_weather_ok_eq (data : CurrentWeatherData)
    (units : String) (w : CurrentWeatherRecord)
    (h : format_current_weather data units = .ok w) :
    w = format_current_weather_ok data units := by
  unfold format_current_weather at h
  split at h
  · exact CurrentWeatherResult.noConfusion h
  · exact (CurrentWeatherResult.ok.inj h).symm

/-- Every sample of a successful forecast output is one formatted item. -/
theorem forecast_sample_mem (data : ForecastData) (days : Int)
    (units : String) (out : ForecastOutput)
    (h : format_forecast data days units = some out)
    (d : String) (vs : List ForecastSample) (hmem : (d, vs) ∈ out.forecast)
    (s : ForecastSample) (hs : s ∈ vs) :
    ∃ it : ForecastItem,
      s = format_forecast_item (if units = "metric" then "°C" else "°F")
        (if units = "metric" then "m/s" else "mph") it := by
  rw [format_forecast_closed data days units out h] at hmem
  rw [List.mem_map] at hmem
  obtain ⟨d2, hd2, heq⟩ := hmem
  injection heq with h1 h2
  subst h1
  subst h2
  rw [List.mem_map] at hs
  obtain ⟨it, hit, rfl⟩ := hs
  exact ⟨it, rfl⟩

/-- C6: for every forecast payload on which `format_forecast` succeeds and
every requested day count `days ≥ 0`: the output date-key order is the
order of first occurrence of each date in the input truncated to `days`
keys; each date's sample list is the formatted input restricted to that
date, in input order; and when the input has more than `days` distinct
dates the output has exactly `days` date keys (the earliest-occurring
ones, by the first conjunct). -/
theorem forecast_bucketing_order (data : ForecastData) (days : Int)
    (units : String) (out : ForecastOutput) (hd : 0 ≤ days)
    (h : format_forecast data days units = some out) :
    out.forecast.map Prod.fst
        = (firstSeen ((data.list.getD []).map dateOfItem)).take days.toNat
    ∧ (∀ d vs, (d, vs) ∈ out.forecast →
        vs = ((data.list.getD []).filter (fun it => dateOfItem it == d)).map
          (format_forecast_item (if units = "metric" then "°C" else "°F")
            (if units = "metric" then "m/s" else "mph")))
    ∧ (days.toNat < (firstSeen ((data.list.getD []).map dateOfItem)).length →
        out.forecast.length = days.toNat) := by
  have hc := format_forecast_closed data days units out h
  rw [pySliceTo_nonneg _ _ hd] at hc
  refine ⟨?_, ?_, ?_⟩
  · rw [hc, List.map_map]
    have hid : (Prod.fst ∘ fun d =>
        (d, ((data.list.getD []).filter (fun it => dateOfItem it == d)).map
          (format_forecast_item (if units = "metric" then "°C" else "°F")
            (if units = "metric" then "m/s" else "mph")))) = id := rfl
    rw [hid, List.map_id]
  · intro d vs hmem
    rw [hc, List.mem_map] at hmem
    obtain ⟨d2, hd2, heq⟩ := hmem
    injection heq with h1 h2
    subst h1
    exact h2.symm
  · intro hlen
    rw [hc, List.length_map, List.length_take]
    omega

/-- Witness for the bucketing theorem: on the four-sample payload with
three distinct dates and two requested days, the date keys are the first
two dates in first-seen order. -/
theorem forecast_bucketing_order_witness :
    sampleForecastOut.forecast.map Prod.fst = ["2024-01-01", "2024-01-02"] := by
  have h := forecast_bucketing_order sampleForecastData 2 "metric"
    sampleForecastOut (by decide) rfl
  rw [h.1]
  rfl

/-- C1 (amended): the coordinates normalized by `format_service_result`
branch on the element kind: a point (`node`) takes the direct lat/lon
fields (0 when absent); an area (`way`) takes the lat/lon of the `center`
sub-record ((0,0) when it or its fields are absent); a `relation` or any
other kind always gets (0,0), even when a `center` sub-record is
present. -/
theorem service_place_coordinates (e : OsmElement) :
    (e.type_ = some "node" →
      (format_service_result e).coordinates
        = { latitude := e.lat.getD 0, longitude := e.lon.getD 0 })
    ∧ (e.type_ = some "way" →
      (format_service_result e).coordinates
        = { latitude := (e.center.getD {}).lat.getD 0
            longitude := (e.center.getD {}).lon.getD 0 })
    ∧ (e.type_ ≠ some "node" → e.type_ ≠ some "way" →
      (format_service_result e).coordinates = { latitude := 0, longitude := 0 }) := by
  refine ⟨fun h => ?_, fun h => ?_, fun h1 h2 => ?_⟩
  · simp [format_service_result, h]
  · simp [format_service_result, h]
  · simp [format_service_result, h1, h2]

/-- C1 counterexample: a `relation` element carrying a `center` sub-record
is normalized to (0,0), not to its centroid coordinates. -/
theorem service_place_relation_center_dropped :
    (format_service_result
      { type_ := some "relation"
        center := some { lat := some 1, lon := some 2 } }).coordinates
        = { latitude := 0, longitude := 0 }
    ∧ ({ latitude := 0, longitude := 0 } : Coordinates)
        ≠ { latitude := 1, longitude := 2 } :=
  ⟨rfl, by decide⟩

/-- Witness for the amended C1 theorem at a concrete node element. -/
theorem service_place_coordinates_witness :
    (format_service_result
      { type_ := some "node", lat := some 3, lon := some 4 }).coordinates
        = { latitude := 3, longitude := 4 } :=
  (service_place_coordinates _).1 rfl

/-- C2 counterexample: `format_alert` on a feature without the
`properties` key raises a KeyError (modeled as `none`) instead of
producing an alert string. -/
theorem format_alert_missing_properties :
    format_alert { properties := none } = none := rfl

/-- C2 (amended): the normalization mappings for Location, ServicePlace,
RouteResult and WeatherSnapshot are total with the documented defaults for
absent fields; the Alert mapping succeeds exactly when the top-level
`properties` field is present (its nested fields still default), and raises
when it is absent; and the ForecastSample mapping fails (the whole payload
becomes the error dict) when a sample omits `dt_txt`, since
`split(" ")[1]` then raises inside the surrounding try/except. -/
theorem normalization_totality :
    (∀ f : AlertFeature, (format_alert f).isSome ↔ f.properties.isSome)
    ∧ format_location_result {}
        = { display_name := "Unknown", name := "Unknown", type_ := "Unknown"
            coordinates := { latitude := 0, longitude := 0 }
            address := [], importance := 0, place_id := .str "Unknown" }
    ∧ format_service_result {}
        = { id := .str "Unknown", type_ := "Unknown", name := "Unnamed"
            coordinates := { latitude := 0, longitude := 0 }
            amenity := "Unknown", shop := "", cuisine := ""
            opening_hours := "Unknown", phone := "", website := ""
            address := { street := "", house_number := "", city := "", postcode := "" }
            tags := [] }
    ∧ format_route_result {} = .error "No routes found"
    ∧ format_current_weather {} "metric"
        = .ok (format_current_weather_ok {} "metric")
    ∧ format_forecast { list := some [{}] } 3 "metric" = none := by
  refine ⟨fun f => ?_, rfl, rfl, rfl, rfl, rfl⟩
  cases f with
  | mk props => cases props <;> simp [format_alert]

/-- C3 evidence: a succeeding location search with zero matches falls into
the first falsiness check of `search_location` and returns the
upstream-failure message — the none-found branch below it is dead code —
while `search_services` and `get_alerts` do return operation-specific
none-found messages distinct from their unable-to-fetch messages. -/
theorem empty_result_messages :
    search_location_body (some []) = .msg "Unable to fetch location data."
    ∧ (∀ (st : String) (r : Int),
        search_services_body st r (some { elements := some [] })
          = .msg ("No " ++ st ++ " services found within " ++ toString r ++
              "m of the specified location."))
    ∧ search_services_body "cafe" 500 none = .msg "Unable to fetch service data."
    ∧ get_alerts_body (some { features := some [] })
        = .msg "No active alerts for this state."
    ∧ get_alerts_body none = .msg "Unable to fetch alerts or no alerts found."
    ∧ "No active alerts for this state." ≠ "Unable to fetch alerts or no alerts found."
    ∧ "Unable to fetch location data." ≠ "No locations found for the given query." :=
  ⟨rfl, fun _ _ => rfl, rfl, rfl, rfl, by decide, by decide⟩

/-- C5 counterexample: a limit of 0 is forwarded as 0, outside [1,50]. -/
theorem search_location_limit_zero :
    search_location_limit 0 = 0 ∧ ¬(1 ≤ search_location_limit 0) := by decide

/-- C5 (amended): the limit forwarded by `search_location` is
`min(limit, 50)`: every value above 50 is capped to exactly 50, and every
value at or below 50 — including zero and negative values — is forwarded
unchanged. -/
theorem search_location_limit_spec (L : Int) :
    search_location_limit L = min L 50
    ∧ (50 < L → search_location_limit L = 50)
    ∧ (L ≤ 50 → search_location_limit L = L) :=
  ⟨rfl, fun h => min_eq_right (le_of_lt h), fun h => min_eq_left h⟩

/-- Witness for the amended C5 theorem: 60 is forwarded as 50. -/
theorem search_location_limit_spec_witness :
    search_location_limit 60 = 50 :=
  (search_location_limit_spec 60).2.1 (by decide)

/-- C8: a route payload with a missing or empty routes array maps to the
"no route" sentinel; the head of the routes array is taken only in the
nonempty branch. -/
theorem route_zero_routes_sentinel (rd : RouteData) :
    ((rd.routes = none ∨ rd.routes = some []) →
      format_route_result rd = .error "No routes found")
    ∧ (∀ (r : RouteRecord) (rest : List RouteRecord),
        rd.routes = some (r :: rest) →
        format_route_result rd = .route (format_first_route r)) := by
  constructor
  · rintro (h | h) <;> simp [format_route_result, h]
  · intro r rest h
    simp [format_route_result, h]

/-- Witness for the C8 theorem at an empty routes array. -/
theorem route_zero_routes_sentinel_witness :
    format_route_result { routes := some [] } = .error "No routes found" :=
  (route_zero_routes_sentinel _).1 (Or.inr rfl)

/-- C4 counterexample: a nonempty points payload without the forecast
reference makes `get_forecast` raise an uncaught KeyError instead of
returning the diagnostic. -/
theorem get_forecast_missing_reference_crashes :
    get_forecast_step1 (some { properties := none, extra := [("status", "ok")] })
        = .crash
    ∧ ForecastStep1.crash
        ≠ .diagnostic "Unable to fetch forecast data for this location." :=
  ⟨rfl, fun h => ForecastStep1.noConfusion h⟩

/-- C4 (amended): when the points call fails (None) or yields an empty
payload, `get_forecast` returns the diagnostic without issuing the second
request; when a nonempty payload omits the `properties`/`forecast`
reference, the operation raises an uncaught KeyError — the second request
is still not issued, but the failure is a crash, not a diagnostic; the
second request is issued exactly when the reference is present. -/
theorem get_forecast_step1_spec :
    get_forecast_step1 none
        = .diagnostic "Unable to fetch forecast data for this location."
    ∧ (∀ pd : PointsData, pd.properties.isNone = true → pd.extra = [] →
        get_forecast_step1 (some pd)
          = .diagnostic "Unable to fetch forecast data for this location.")
    ∧ (∀ pd : PointsData, ¬(pd.properties.isNone = true ∧ pd.extra = []) →
        (match pd.properties with
          | none => none
          | some props => props.forecast) = none →
        get_forecast_step1 (some pd) = .crash)
    ∧ (∀ (pd : PointsData) (props : PointsProperties) (url : String),
        pd.properties = some props → props.forecast = some url →
        get_forecast_step1 (some pd) = .proceed url) := by
  refine ⟨rfl, ?_, ?_, ?_⟩
  · intro pd h1 h2
    simp [get_forecast_step1, h1, h2]
  · intro pd hne hforecast
    cases hp : pd.properties with
    | none =>
      have hex : pd.extra ≠ [] := by
        intro hx
        exact hne ⟨by rw [hp]; rfl, hx⟩
      have hex2 : pd.extra.isEmpty = false := by
        cases hx : pd.extra with
        | nil => exact absurd hx hex
        | cons a t => rfl
      simp [get_forecast_step1, hp, hex2]
    | some props =>
      rw [hp] at hforecast
      simp only [] at hforecast
      simp [get_forecast_step1, hp, hforecast]
  · intro pd props url hp hurl
    simp [get_forecast_step1, hp, hurl]

/-- Witness for the amended C4 theorem: a present reference proceeds to the
second request against the extracted URL. -/
theorem get_forecast_step1_spec_witness :
    get_forecast_step1 (some { properties := some { forecast := some "u" } })
        = .proceed "u" :=
  get_forecast_step1_spec.2.2.2 _ _ "u" rfl rfl

/-- C7 counterexample: with the credential unset and days=6, the tool
returns the credential message, not the day-count message. -/
theorem day_count_behind_credential :
    get_weather_forecast_step none "Paris" 6 "metric" = .reply missing_key_msg
    ∧ missing_key_msg ≠ days_range_msg :=
  ⟨rfl, by decide⟩

/-- C7 (amended): `get_directions` rejects every profile outside the
closed set with the message listing the three valid profiles, issuing no
network request (`reply`, not `request`); `get_weather_forecast` rejects a
day count outside [1,5] before any network request provided the credential
is set — with the credential unset the credential message is returned
instead (see the counterexample). -/
theorem input_validation_before_network :
    (∀ (a b c d : ℚ) (profile : String), profile ∉ valid_profiles →
      get_directions_step a b c d profile
        = .reply "Invalid profile. Must be one of: driving, walking, cycling")
    ∧ (∀ (key : Option String) (city : String) (days : Int) (units : String),
        keyFalsy key = false → (days < 1 ∨ days > 5) →
        get_weather_forecast_step key city days units = .reply days_range_msg) := by
  constructor
  · intro a b c d profile h
    unfold get_directions_step
    rw [if_pos h]
    rfl
  · intro key city days units hk hd
    unfold get_weather_forecast_step
    rw [if_neg (by simp [hk]), if_pos hd]

/-- Witness for the amended C7 theorem: profile "flying" and, with a set
credential, days=0 are both rejected before the network boundary. -/
theorem input_validation_before_network_witness :
    get_directions_step 0 0 0 0 "flying"
        = .reply "Invalid profile. Must be one of: driving, walking, cycling"
    ∧ get_weather_forecast_step (some "k") "London" 0 "metric"
        = .reply days_range_msg :=
  ⟨input_validation_before_network.1 0 0 0 0 "flying" (by decide),
   input_validation_before_network.2 (some "k") "London" 0 "metric" rfl
     (by decide)⟩

/-- C10: the credential check of `get_weather_forecast` precedes day-count
validation: with the credential unset (or empty) the credential message is
returned whatever the day count, with no network request; and the day-count
message is only ever returned when the credential is set and the day count
is outside [1,5]. -/
theorem credential_checked_first (key : Option String) (city : String)
    (days : Int) (units : String) :
    (keyFalsy key = true →
      get_weather_forecast_step key city days units = .reply missing_key_msg)
    ∧ (get_weather_forecast_step key city days units = .reply days_range_msg →
      keyFalsy key = false ∧ (days < 1 ∨ days > 5)) := by
  constructor
  · intro h
    unfold get_weather_forecast_step
    rw [if_pos h]
  · intro h
    unfold get_weather_forecast_step at h
    by_cases hk : keyFalsy key = true
    · rw [if_pos hk] at h
      exact absurd (ToolStep.reply.inj h) (by decide)
    · have hk2 : keyFalsy key = false := by
        cases hv : keyFalsy key
        · rfl
        · exact absurd hv hk
      refine ⟨hk2, ?_⟩
      rw [if_neg hk] at h
      by_cases hd : days < 1 ∨ days > 5
      · exact hd
      · rw [if_neg hd] at h
        exact ToolStep.noConfusion h

/-- Witness for the C10 theorem: credential unset and days=0 gives the
credential message. -/
theorem credential_checked_first_witness :
    get_weather_forecast_step none "London" 0 "metric"
        = .reply missing_key_msg :=
  (credential_checked_first none "London" 0 "metric").1 rfl

/-- C9: the unit suffixes of a response are chosen once from the requested
unit system and used consistently: with "imperial", every temperature field
of a current-weather record or forecast sample ends in `°F` and every
wind-speed field ends in `mph`; with "metric", `°C` and `m/s`. -/
theorem unit_suffix_consistency :
    (∀ (data : CurrentWeatherData) (w : CurrentWeatherRecord),
      format_current_weather data "imperial" = .ok w →
        (∃ p, w.current.temperature = p ++ "°F")
        ∧ (∃ p, w.current.feels_like = p ++ "°F")
        ∧ (∃ p, w.current.wind.speed = p ++ "mph"))
    ∧ (∀ (data : CurrentWeatherData) (w : CurrentWeatherRecord),
      format_current_weather data "metric" = .ok w →
        (∃ p, w.current.temperature = p ++ "°C")
        ∧ (∃ p, w.current.feels_like = p ++ "°C")
        ∧ (∃ p, w.current.wind.speed = p ++ "m/s"))
    ∧ (∀ (data : ForecastData) (days : Int) (out : ForecastOutput),
      format_forecast data days "imperial" = some out →
      ∀ d vs, (d, vs) ∈ out.forecast → ∀ s ∈ vs,
        (∃ p, s.temperature = p ++ "°F") ∧ (∃ p, s.feels_like = p ++ "°F")
        ∧ (∃ p, s.min_temp = p ++ "°F") ∧ (∃ p, s.max_temp = p ++ "°F")
        ∧ (∃ p, s.wind.speed = p ++ "mph"))
    ∧ (∀ (data : ForecastData) (days : Int) (out : ForecastOutput),
      format_forecast data days "metric" = some out →
      ∀ d vs, (d, vs) ∈ out.forecast → ∀ s ∈ vs,
        (∃ p, s.temperature = p ++ "°C") ∧ (∃ p, s.feels_like = p ++ "°C")
        ∧ (∃ p, s.min_temp = p ++ "°C") ∧ (∃ p, s.max_temp = p ++ "°C")
        ∧ (∃ p, s.wind.speed = p ++ "m/s")) := by
  refine ⟨?_, ?_, ?_, ?_⟩
  · intro data w h
    obtain rfl := format_current_weather_ok_eq data "imperial" w h
    exact ⟨⟨_, rfl⟩, ⟨_, rfl⟩, ⟨_, rfl⟩⟩
  · intro data w h
    obtain rfl := format_current_weather_ok_eq data "metric" w h
    exact ⟨⟨_, rfl⟩, ⟨_, rfl⟩, ⟨_, rfl⟩⟩
  · intro data days out h d vs hmem s hs
    obtain ⟨it, rfl⟩ := forecast_sample_mem data days "imperial" out h d vs hmem s hs
    exact ⟨⟨_, rfl⟩, ⟨_, rfl⟩, ⟨_, rfl⟩, ⟨_, rfl⟩, ⟨_, rfl⟩⟩
  · intro data days out h d vs hmem s hs
    obtain ⟨it, rfl⟩ := forecast_sample_mem data days "metric" out h d vs hmem s hs
    exact ⟨⟨_, rfl⟩, ⟨_, rfl⟩, ⟨_, rfl⟩, ⟨_, rfl⟩, ⟨_, rfl⟩⟩

/-- Witness for the unit-suffix theorem: the empty payload formatted with
each unit system. -/
theorem unit_suffix_consistency_witness :
    (∃ p, sampleCurrentF.current.temperature = p ++ "°F")
    ∧ (∃ p, sampleCurrentF.current.wind.speed = p ++ "mph")
    ∧ (∃ p, sampleCurrentC.current.temperature = p ++ "°C")
    ∧ (∃ p, sampleCurrentC.current.wind.speed = p ++ "m/s") :=
  ⟨(unit_suffix_consistency.1 {} sampleCurrentF rfl).1,
   (unit_suffix_consistency.1 {} sampleCurrentF rfl).2.2,
   (unit_suffix_consistency.2.1 {} sampleCurrentC rfl).1,
   (unit_suffix_consistency.2.1 {} sampleCurrentC rfl).2.2⟩

end Srv
